import Mathlib

/-!
# bayesPCA: `inst/include/aux_functions.h`

The repository's source is one header of thirteen function prototypes inside an
include guard.  The development below embeds the header as its text
(`sourceLines`, one string per physical line), reads it with a small lexer and
a recogniser for the fragment of C++ the header is written in, and states the
interface contract of the specification over the result.

* `sourceLines`      the header, line by line;
* `lexLine`, `parseFile`  text to `Item`s (directives and statements);
* `header`, `declared`    the items and the prototypes of the header;
* `gammaFunc` ... `logvarMat`  the thirteen prototypes, written out;
* `specTable`        the interface table of the specification (section 6);
* `step`, `run`     conditional inclusion (`#ifndef` / `#define` / `#endif`, and
                     `#undef`, `#ifdef`, `#else` in the text around inclusions);
* `call`             argument passing by value and by reference;
* `resolves`         declared-before-use of the type names.
-/

namespace AuxFunctions

/-! ## The source text -/

/-- The text of `inst/include/aux_functions.h`, one entry per physical line
(the last line, `#endif`, has no line terminator in the file). -/
def sourceLines : List String := [
  "#ifndef AUX_FUNCTIONS_H",
  "#define AUX_FUNCTIONS_H",
  "",
  "double gammaFunc( double x, bool logScale ); ",
  "double diGammaFunc( double x ); ",
  "double betaFunc( double a, double b, bool logScale ); ",
  "",
  " ",
  "arma::mat invSMW( arma::mat D, arma::mat X, int I ); ",
  "",
  "void funcX( arma::mat X, arma::mat &XTX, double &trXTX ); ",
  "",
  "",
  "double gamd( double x, double logx, double a, double b ); ",
  "double invgamd( double invx, double logx, double a, double b ); ",
  "double gamh( double a, double b ); ",
  "double invgamh( double a, double b ); ",
  "",
  "",
  "arma::mat retHPDI( arma::vec mu, arma::vec sigma, double qz, int J ); ",
  "",
  "void updateIncProbs( arma::mat &incProbs, int J, int D, arma::vec logpg, ",
  "                     arma::vec logpinvg, arma::mat W2, double v0, ",
  "                     arma::mat invTau, double invSigma2 ); ",
  "",
  "arma::mat fMat( bool globalvar, std::string priorvar, arma::mat W2, double invsigma, bool SVS,",
  "                arma::mat incProbs, double v0, arma::vec gammatau, arma::vec betatau, ",
  "                arma::mat deltataupost, std::string hypertype, ",
  "                int J, int D, arma::vec alphatau, int JD ); ",
  "arma::mat logvarMat( bool globalvar, int J, int D, arma::mat f, std::string priorvar, ",
  "                     arma::mat invTau, std::string hypertype, arma::vec alphatau ); \t\t\t\t\t ",
  "",
  "#endif"
]

/-! ## Lexical structure -/

/-- A token: a (possibly `::`-qualified) name, or a single punctuation character. -/
inductive Tok where
  | ident (s : String)
  | sym (c : Char)
  deriving DecidableEq, Repr

/-- Characters of a name. -/
def isNameChar (c : Char) : Bool :=
  c.isAlphanum || c == '_'

/-- White space inside a line. -/
def isBlank (c : Char) : Bool :=
  c == ' ' || c == '\t' || c == '\r' || c == '\n'

/-- Close the name collected in `acc` (held in reverse), if there is one. -/
def closeName (acc : List Char) (out : List Tok) : List Tok :=
  match acc with
  | [] => out
  | _ :: _ => Tok.ident (String.mk acc.reverse) :: out

/-- The lexer loop: `acc` is the name being read (reversed), `out` the tokens read
so far (reversed).  A `::` that follows a name continues it, so `arma::mat` is
one token. -/
def lexAux : List Char → List Char → List Tok → List Tok
  | [], acc, out => (closeName acc out).reverse
  | c :: cs, acc, out =>
    if isNameChar c then lexAux cs (c :: acc) out
    else if isBlank c then lexAux cs [] (closeName acc out)
    else
      match c, cs, acc with
      | ':', ':' :: d :: _, _ :: _ =>
        if isNameChar d then lexAux cs (':' :: acc) out
        else lexAux cs [] (Tok.sym c :: closeName acc out)
      | ':', _, ':' :: _ :: _ => lexAux cs (':' :: acc) out
      | _, _, _ => lexAux cs [] (Tok.sym c :: closeName acc out)

/-- Tokens of one line of text. -/
def lexLine (l : String) : List Tok :=
  lexAux l.data [] []

/-! ## Declarations -/

/-- How a parameter receives its argument: a copy (`T x`), the caller's object
(`T &x`), or a read-only view of it (`const T &x`). -/
inductive Passing where
  | byValue
  | byRef
  | byConstRef
  deriving DecidableEq, Repr

/-- One parameter of a prototype: `type [&] name`. -/
structure Param where
  type : String
  passing : Passing
  name : String
  deriving DecidableEq, Repr

/-- A function prototype `ret name( params );`. -/
structure Prototype where
  ret : String
  name : String
  params : List Param
  deriving DecidableEq, Repr

/-- What the header is made of: the three directives of an include guard, any
other directive, a prototype, or any other statement (kept as its tokens). -/
inductive Item where
  | ifndef (m : String)
  | define (m : String) (value : List Tok)
  | endif
  | directive (toks : List Tok)
  | proto (p : Prototype)
  | other (toks : List Tok)
  deriving DecidableEq, Repr

/-- Read one parameter. -/
def parseParam : List Tok → Option Param
  | [Tok.ident "const", Tok.ident t, Tok.sym '&', Tok.ident n] => some ⟨t, Passing.byConstRef, n⟩
  | [Tok.ident t, Tok.sym '&', Tok.ident n] => some ⟨t, Passing.byRef, n⟩
  | [Tok.ident t, Tok.ident n] => some ⟨t, Passing.byValue, n⟩
  | _ => none

/-- Cut a token list at every occurrence of `sep`; `cur` is the piece being
read (reversed). -/
def splitOn (sep : Tok) : List Tok → List Tok → List (List Tok)
  | [], cur => [cur.reverse]
  | t :: ts, cur =>
    if t = sep then cur.reverse :: splitOn sep ts []
    else splitOn sep ts (t :: cur)

/-- Read every piece of a parameter list; fails when one piece is not a parameter. -/
def parseEach : List (List Tok) → Option (List Param)
  | [] => some []
  | ts :: rest =>
    match parseParam ts, parseEach rest with
    | some q, some qs => some (q :: qs)
    | _, _ => none

/-- Read the text between the parentheses of a prototype. -/
def parseParams (toks : List Tok) : Option (List Param) :=
  match toks with
  | [] => some []
  | _ :: _ => parseEach (splitOn (Tok.sym ',') toks [])

/-- Read a statement (without its closing `;`) as `ret name ( params )`. -/
def parsePrototype : List Tok → Option Prototype
  | Tok.ident r :: Tok.ident n :: Tok.sym '(' :: rest =>
    match rest.getLast? with
    | some (Tok.sym ')') => (parseParams rest.dropLast).map (fun ps => ⟨r, n, ps⟩)
    | _ => none
  | _ => none

/-- A statement is a prototype when it reads as one, and is kept verbatim otherwise. -/
def classify (stmt : List Tok) : Item :=
  match parsePrototype stmt with
  | some p => Item.proto p
  | none => Item.other stmt

/-- Read a directive line (its first token is `#`). -/
def parseDirective : List Tok → Item
  | [Tok.sym '#', Tok.ident "ifndef", Tok.ident m] => Item.ifndef m
  | Tok.sym '#' :: Tok.ident "define" :: Tok.ident m :: value => Item.define m value
  | [Tok.sym '#', Tok.ident "endif"] => Item.endif
  | toks => Item.directive toks

/-- Feed the tokens of a line to the statement being read (`pend`, reversed): every
`;` closes a statement.  Returns the closed statements and what is still open. -/
def feed : List Tok → List Tok → List Item × List Tok
  | [], pend => ([], pend)
  | t :: ts, pend =>
    if t = Tok.sym ';' then
      let r := feed ts []
      (classify pend.reverse :: r.1, r.2)
    else feed ts (t :: pend)

/-- Tokens left open with no closing `;` are a statement of their own. -/
def unfinished : List Tok → List Item
  | [] => []
  | t :: ts => [Item.other (t :: ts).reverse]

/-- Read the lines of a file: a line that starts with `#` is a directive, the
other lines are a stream of `;`-terminated statements. -/
def parseLines : List (List Tok) → List Tok → List Item
  | [], pend => unfinished pend
  | l :: ls, pend =>
    match l with
    | Tok.sym '#' :: _ => unfinished pend ++ parseDirective l :: parseLines ls []
    | _ =>
      let r := feed l pend
      r.1 ++ parseLines ls r.2

/-- Read a file given as its lines. -/
def parseFile (lines : List String) : List Item :=
  parseLines (lines.map lexLine) []

/-- The prototypes among the items, in order. -/
def protosOf : List Item → List Prototype
  | [] => []
  | Item.proto p :: rest => p :: protosOf rest
  | _ :: rest => protosOf rest

/-- The header `aux_functions.h` as items. -/
def header : List Item :=
  parseFile sourceLines

/-- The functions the header declares, in declaration order. -/
def declared : List Prototype :=
  protosOf header

/-! ## The header, written out -/

/-- A parameter passed by non-const reference, `t &n`. -/
def byRef (t n : String) : Param :=
  ⟨t, Passing.byRef, n⟩

/-- The words of the "Returns" column of the table. -/
inductive Returns where
  | scalar
  | matrix
  | void
  deriving DecidableEq, Repr

/-- One function of the interface table: its name, its parameters in the order
of the row, those of them marked "(out)", and the "Returns" column. -/
structure SpecRow where
  name : String
  params : List String
  out : List String
  returns : Returns
  deriving DecidableEq, Repr

/-- The interface table of section 6 of the specification, row by row.  The
table writes `gamd / invgamd | x/invx, logx, a, b` and `gamh / invgamh | a, b`
for two functions each; they are the entries `gamd`, `invgamd` and `gamh`,
`invgamh` here. -/
def specTable : List SpecRow := [
  ⟨"gammaFunc", ["x", "logScale"], [], Returns.scalar⟩,
  ⟨"diGammaFunc", ["x"], [], Returns.scalar⟩,
  ⟨"betaFunc", ["a", "b", "logScale"], [], Returns.scalar⟩,
  ⟨"invSMW", ["D", "X", "I"], [], Returns.matrix⟩,
  ⟨"funcX", ["X", "XTX", "trXTX"], ["XTX", "trXTX"], Returns.void⟩,
  ⟨"gamd", ["x", "logx", "a", "b"], [], Returns.scalar⟩,
  ⟨"invgamd", ["invx", "logx", "a", "b"], [], Returns.scalar⟩,
  ⟨"gamh", ["a", "b"], [], Returns.scalar⟩,
  ⟨"invgamh", ["a", "b"], [], Returns.scalar⟩,
  ⟨"retHPDI", ["mu", "sigma", "qz", "J"], [], Returns.matrix⟩,
  ⟨"updateIncProbs",
    ["incProbs", "J", "D", "logpg", "logpinvg", "W2", "v0", "invTau", "invSigma2"],
    ["incProbs"], Returns.void⟩,
  ⟨"fMat",
    ["globalvar", "priorvar", "W2", "invsigma", "SVS", "incProbs", "v0", "gammatau",
     "betatau", "deltataupost", "hypertype", "J", "D", "alphatau", "JD"],
    [], Returns.matrix⟩,
  ⟨"logvarMat",
    ["globalvar", "J", "D", "f", "priorvar", "invTau", "hypertype", "alphatau"],
    [], Returns.matrix⟩
]

/-- The word of the "Returns" column for a declared return type. -/
def returnsOf (t : String) : Option Returns :=
  if t = "double" then some Returns.scalar
  else if t = "arma::mat" then some Returns.matrix
  else if t = "void" then some Returns.void
  else none

/-- The container kinds the specification lists for parameters (section 3). -/
inductive Kind where
  | matrix
  | vector
  | scalar
  | boolean
  | string
  deriving DecidableEq, Repr

/-- The kind of a parameter type: `arma::mat` is a dense matrix, `arma::vec` a
dense vector, `double` and `int` are scalars, `bool` a boolean and `std::string`
a string; any other type has none of these kinds. -/
def kindOf (t : String) : Option Kind :=
  if t = "arma::mat" then some Kind.matrix
  else if t = "arma::vec" then some Kind.vector
  else if t = "double" then some Kind.scalar
  else if t = "int" then some Kind.scalar
  else if t = "bool" then some Kind.boolean
  else if t = "std::string" then some Kind.string
  else none

/-- The names of the parameters of a prototype, in declaration order. -/
def paramNames (p : Prototype) : List String :=
  p.params.map Param.name

/-- The prototype the header declares under the name `n`, if any. -/
def lookup (n : String) : Option Prototype :=
  declared.find? (fun p => p.name = n)

/-- The names of the declared functions whose return type is `t`. -/
def returning (t : String) : List String :=
  (declared.filter (fun p => p.ret = t)).map Prototype.name

/-- The string-typed parameters of a prototype. -/
def stringParams (p : Prototype) : List String :=
  (p.params.filter (fun q => q.type = "std::string")).map Param.name

/-- A statement that is not a prototype. -/
def Item.isOther : Item → Bool
  | Item.other _ => true
  | _ => false

/-! ## Argument passing -/

/-- The type names that need no declaration. -/
def builtinTypes : List String :=
  ["double", "int", "bool", "void"]

/-- The type names a prototype mentions: its return type and its parameter types. -/
def typesUsed (p : Prototype) : List String :=
  p.ret :: p.params.map Param.type

/-- The type names the header mentions that are not built in, without repetition,
in order of first use. -/
def foreignTypes : List String :=
  ((declared.flatMap typesUsed).filter (fun t => decide (t ∉ builtinTypes))).eraseDups

/-- Every type name a list of prototypes mentions is built in or among `known`,
the names declared before the prototypes are read (a prototype declares a
function and adds no type name). -/
def resolves (known : List String) (ps : List Prototype) : Bool :=
  (ps.flatMap typesUsed).all (fun t => decide (t ∈ builtinTypes ∨ t ∈ known))

/-- An `#include` directive. -/
def Item.isInclude : Item → Bool
  | Item.directive (Tok.sym '#' :: Tok.ident "include" :: _) => true
  | _ => false

/-- The items an include guard around prototypes is made of: `#ifndef M`,
`#define M` with an empty replacement, `#endif`, and prototypes. -/
def Item.isGuardOrProto : Item → Bool
  | Item.ifndef _ => true
  | Item.define _ [] => true
  | Item.endif => true
  | Item.proto _ => true
  | _ => false

/-- All tokens of the header, in order. -/
def tokens : List Tok :=
  sourceLines.flatMap lexLine

/-- The characters that open or close a body or an initialiser. -/
def bodyTokens : List Tok :=
  [Tok.sym '\x7b', Tok.sym '\x7d', Tok.sym '=']

/-- The keywords of control flow and of type definitions. -/
def keywords : List Tok :=
  [Tok.ident "if", Tok.ident "else", Tok.ident "for", Tok.ident "while", Tok.ident "do",
   Tok.ident "switch", Tok.ident "case", Tok.ident "goto", Tok.ident "return",
   Tok.ident "break", Tok.ident "continue", Tok.ident "try", Tok.ident "catch",
   Tok.ident "throw", Tok.ident "class", Tok.ident "struct", Tok.ident "union",
   Tok.ident "enum", Tok.ident "typedef", Tok.ident "using", Tok.ident "namespace",
   Tok.ident "template", Tok.ident "inline", Tok.ident "static"]

set_option maxRecDepth 100000

/-- C1: the header declares exactly thirteen functions, their names are pairwise
distinct, and they are the names of the interface table (gammaFunc, diGammaFunc,
betaFunc, invSMW, funcX, gamd, invgamd, gamh, invgamh, retHPDI, updateIncProbs,
fMat, logvarMat): every declared name is in the table, every name of the table
is declared, and no statement of the header is anything but a prototype. -/
theorem declares_exactly_the_table :
    declared.length = 13 ∧
    (declared.map Prototype.name).Nodup ∧
    declared.map Prototype.name =
      ["gammaFunc", "diGammaFunc", "betaFunc", "invSMW", "funcX", "gamd", "invgamd", "gamh",
       "invgamh", "retHPDI", "updateIncProbs", "fMat", "logvarMat"] ∧
    declared.map Prototype.name = specTable.map SpecRow.name ∧
    (∀ n : String, n ∈ declared.map Prototype.name ↔ n ∈ specTable.map SpecRow.name) ∧
    (∀ it ∈ header, it.isOther = false) := by
  refine ⟨by decide, by decide, by decide, by decide, ?_, by decide⟩
  intro n
  rw [show declared.map Prototype.name = specTable.map SpecRow.name by decide]

/-- C2: for every declared function the parameter names, in declaration order,
are the parameter list of its row of the interface table; fMat has exactly its
15 parameters, logvarMat its 8 and updateIncProbs its 9, each in the order of
the table. -/
theorem parameter_names_match_table :
    declared.map (fun p => (p.name, paramNames p)) =
      specTable.map (fun r => (r.name, r.params)) ∧
    (lookup "fMat").map paramNames =
      some ["globalvar", "priorvar", "W2", "invsigma", "SVS", "incProbs", "v0", "gammatau",
            "betatau", "deltataupost", "hypertype", "J", "D", "alphatau", "JD"] ∧
    (lookup "fMat").map (fun p => p.params.length) = some 15 ∧
    (lookup "logvarMat").map paramNames =
      some ["globalvar", "J", "D", "f", "priorvar", "invTau", "hypertype", "alphatau"] ∧
    (lookup "logvarMat").map (fun p => p.params.length) = some 8 ∧
    (lookup "updateIncProbs").map paramNames =
      some ["incProbs", "J", "D", "logpg", "logpinvg", "W2", "v0", "invTau", "invSigma2"] ∧
    (lookup "updateIncProbs").map (fun p => p.params.length) = some 9 := by
  refine ⟨by decide, by decide, by decide, by decide, by decide, by decide, by decide⟩

/-- C3: the declared return type of every function is the one the "Returns"
column of the interface table names: gammaFunc, diGammaFunc, betaFunc, gamd,
invgamd, gamh and invgamh return `double` (scalar), invSMW, retHPDI, fMat and
logvarMat return `arma::mat` (matrix), funcX and updateIncProbs return `void`. -/
theorem return_types_match_table :
    declared.map (fun p => (p.name, returnsOf p.ret)) =
      specTable.map (fun r => (r.name, some r.returns)) ∧
    returning "double" =
      ["gammaFunc", "diGammaFunc", "betaFunc", "gamd", "invgamd", "gamh", "invgamh"] ∧
    returning "arma::mat" = ["invSMW", "retHPDI", "fMat", "logvarMat"] ∧
    returning "void" = ["funcX", "updateIncProbs"] ∧
    (∀ p ∈ declared, p.ret = "double" ∨ p.ret = "arma::mat" ∨ p.ret = "void") := by
  refine ⟨by decide, by decide, by decide, by decide, by decide⟩

/-- C5: every parameter of every declared function is a dense matrix
(`arma::mat`), a dense vector (`arma::vec`), a scalar (`double` or `int`), a
boolean (`bool`) or a string (`std::string`); the string-typed parameters are
exactly those named priorvar and hypertype; the functions that have one are fMat
and logvarMat, and each of the two has both. -/
theorem parameter_kinds_and_string_tags :
    (∀ p ∈ declared, ∀ q ∈ p.params,
      q.type ∈ ["arma::mat", "arma::vec", "double", "int", "bool", "std::string"]) ∧
    (∀ p ∈ declared, ∀ q ∈ p.params, (kindOf q.type).isSome = true) ∧
    (∀ p ∈ declared, ∀ q ∈ p.params,
      q.type = "std::string" ↔ (q.name = "priorvar" ∨ q.name = "hypertype")) ∧
    (declared.filter (fun p => decide (stringParams p ≠ []))).map Prototype.name =
      ["fMat", "logvarMat"] ∧
    (lookup "fMat").map stringParams = some ["priorvar", "hypertype"] ∧
    (lookup "logvarMat").map stringParams = some ["priorvar", "hypertype"] := by
  refine ⟨by decide, by decide, by decide, by decide, by decide, by decide⟩

/-- C6: the header is declaration-only.  It consists of the guard directives
(`#ifndef`, a `#define` with an empty replacement, `#endif`) and of prototypes,
each closed by its `;`; no token opens a body or an initialiser, none is a
keyword of control flow or of a type definition, and there is no statement that
is not a prototype: no variable, no type, no class, no valued definition, no
function body. -/
theorem header_is_declaration_only :
    (∀ it ∈ header, it.isGuardOrProto = true) ∧
    (∀ it ∈ header, it.isOther = false) ∧
    header = Item.ifndef "AUX_FUNCTIONS_H" :: Item.define "AUX_FUNCTIONS_H" [] ::
      (declared.map Item.proto ++ [Item.endif]) ∧
    (∀ t ∈ tokens, t ∉ bodyTokens ∧ t ∉ keywords) ∧
    tokens.count (Tok.sym ';') = declared.length ∧
    declared.length = 13 := by
  refine ⟨by decide, by decide, by decide, by decide, by decide, by decide⟩

/-- C9: the header is not self-contained.  It has no `#include` (its only
directives are the guard) and no statement that could declare a type, yet its
prototypes mention `arma::mat`, `arma::vec` and `std::string`; so its type names
resolve exactly when those three are already declared where the header is
included, and they do not resolve with nothing declared. -/
theorem header_is_not_self_contained :
    (∀ it ∈ header, it.isInclude = false) ∧
    (∀ it ∈ header, it.isGuardOrProto = true) ∧
    foreignTypes = ["arma::mat", "arma::vec", "std::string"] ∧
    resolves [] declared = false ∧
    (∀ known : List String, resolves known declared = true ↔
      ("arma::mat" ∈ known ∧ "arma::vec" ∈ known ∧ "std::string" ∈ known)) := by
  refine ⟨by decide, by decide, by decide, by decide, ?_⟩
  intro known
  have hused : ∀ t ∈ declared.flatMap typesUsed,
      t ∈ builtinTypes ∨ t ∈ ["arma::mat", "arma::vec", "std::string"] := by decide
  have hmat : "arma::mat" ∈ declared.flatMap typesUsed := by decide
  have hvec : "arma::vec" ∈ declared.flatMap typesUsed := by decide
  have hstr : "std::string" ∈ declared.flatMap typesUsed := by decide
  simp only [resolves, List.all_eq_true, decide_eq_true_eq]
  constructor
  · intro h
    refine ⟨?_, ?_, ?_⟩
    · exact (h _ hmat).resolve_left (by decide)
    · exact (h _ hvec).resolve_left (by decide)
    · exact (h _ hstr).resolve_left (by decide)
  · rintro ⟨h1, h2, h3⟩ t ht
    rcases hused t ht with hb | hf
    · exact Or.inl hb
    · right
      simp only [List.mem_cons, List.mem_singleton, List.not_mem_nil, or_false] at hf
      rcases hf with rfl | rfl | rfl <;> assumption

end AuxFunctions
